import Mathlib

/-
Shallow embedding of the VSCode_Arduino extension (arduinoManager.ts,
libraryManager.ts, configManager.ts).

The extension's effectful environment is made explicit:
  * a cache file on disk is a `CacheFile`: absent, or present with an
    mtime (ms since epoch) and a content;
  * the content of a cache file, after `fs.readFileSync` + `JSON.parse` +
    shape validation, is a `CacheContent`: `corrupt` covers both a
    `JSON.parse` throw and a parsed value lacking the expected array field
    (`cached.boards` / `cached.libraries`), `valid items` is a parse that
    passes the `Array.isArray` validation;
  * the outcome of one `exec` of the external CLI followed by `JSON.parse`
    of its stdout is a `CmdResult`: `execError` when `exec` reports an
    error, `parseError` when `JSON.parse` throws, `parsed v` when parsing
    succeeds, `v` being the payload already projected to the fields the
    code reads;
  * `Date.now()` is an explicit `now : Nat` argument (ms since epoch;
    `now - mtime` in JS can be negative when mtime is in the future, which
    is not `> cacheExpiration`, exactly as Nat truncated subtraction);
  * a promise that can reject is an `Except String` value.

Functions that also write the cache file return the new `CacheFile`
alongside their result.
-/

namespace VSCodeArduino

/-- Content of a cache file after read + parse + shape validation. -/
inductive CacheContent (α : Type) where
  | corrupt : CacheContent α
  | valid : List α → CacheContent α
deriving DecidableEq

/-- A cache file on disk: absent, or present with mtime and content. -/
inductive CacheFile (α : Type) where
  | absent : CacheFile α
  | present : Nat → CacheContent α → CacheFile α
deriving DecidableEq

/-- Outcome of one external-CLI invocation plus JSON parse of its stdout. -/
inductive CmdResult (α : Type) where
  | execError : String → CmdResult α
  | parseError : String → CmdResult α
  | parsed : α → CmdResult α
deriving DecidableEq

/-- Observable outcome of a refresh command (which message it shows). -/
inductive RefreshOutcome where
  | success : RefreshOutcome
  | errorShown : String → RefreshOutcome
deriving DecidableEq

namespace ArduinoManager

/-- A board entry as built by the code: `{label, fqbn, name}`. -/
structure Board where
  label : String
  fqbn : String
  name : String
deriving DecidableEq

/-- `cacheExpiration = 7 * 24 * 60 * 60 * 1000` — 7 days in milliseconds. -/
def cacheExpiration : Nat := 7 * 24 * 60 * 60 * 1000

/-- A raw board object of the `board listall --format json` payload:
the code reads only `fqbn` and `name`, each possibly missing. -/
structure RawBoard where
  fqbn : Option String
  name : Option String
deriving DecidableEq

/-- `loadBoardsFromCache`: null when the file is absent, when
`now - mtime > cacheExpiration`, or when the content is corrupt (a read
or parse throw lands in the catch, which returns null); otherwise the
validated `cached.boards` array. -/
def loadBoardsFromCache (now : Nat) (file : CacheFile Board) : Option (List Board) :=
  match file with
  | .absent => none
  | .present mtime content =>
    if now - mtime > cacheExpiration then none
    else
      match content with
      | .corrupt => none
      | .valid boards => some boards

/-- `getAvailableBoardsStreaming`: rejects on exec error or JSON parse
error; otherwise filters the payload to entries whose `fqbn` and `name`
are truthy (present and non-empty) and maps them to
`{label: name, fqbn, name}`. -/
def getAvailableBoardsStreaming (raw : CmdResult (List RawBoard)) :
    Except String (List Board) :=
  match raw with
  | .execError e => .error e
  | .parseError e => .error e
  | .parsed boards =>
    .ok (boards.filterMap fun b =>
      match b.fqbn, b.name with
      | some f, some n =>
        if f ≠ "" ∧ n ≠ "" then some { label := n, fqbn := f, name := n } else none
      | _, _ => none)

/-- `getCommonBoards`: the hardcoded static fallback list. -/
def getCommonBoards : List Board :=
  [ { label := "Arduino Uno", fqbn := "arduino:avr:uno", name := "Arduino Uno" },
    { label := "Arduino Nano", fqbn := "arduino:avr:nano", name := "Arduino Nano" },
    { label := "Arduino Mega", fqbn := "arduino:avr:mega", name := "Arduino Mega" },
    { label := "Arduino Leonardo", fqbn := "arduino:avr:leonardo", name := "Arduino Leonardo" },
    { label := "Arduino Micro", fqbn := "arduino:avr:micro", name := "Arduino Micro" },
    { label := "Arduino Pro Mini", fqbn := "arduino:avr:pro", name := "Arduino Pro Mini" },
    { label := "ESP32 Dev Module", fqbn := "esp32:esp32:esp32", name := "ESP32 Dev Module" },
    { label := "ESP32-S3 Dev Module", fqbn := "esp32:esp32:esp32s3", name := "ESP32-S3 Dev Module" },
    { label := "ESP8266 NodeMCU", fqbn := "esp8266:esp8266:nodemcuv2", name := "ESP8266 NodeMCU" },
    { label := "ESP8266 Generic", fqbn := "esp8266:esp8266:generic", name := "ESP8266 Generic" },
    { label := "Teensy 3.2", fqbn := "teensy:avr:teensy32", name := "Teensy 3.2" },
    { label := "Teensy 4.0", fqbn := "teensy:avr:teensy40", name := "Teensy 4.0" } ]

/-- `saveBoardsToCache`: writes `{boards, timestamp: Date.now()}`; the new
file's mtime is the write time. -/
def saveBoardsToCache (boards : List Board) (now : Nat) : CacheFile Board :=
  CacheFile.present now (CacheContent.valid boards)

/-- `fetchBoards`: try block fetches via `getAvailableBoardsStreaming` and
saves to cache; the catch block retries `loadBoardsFromCache` and finally
falls back to `getCommonBoards`.  The promise always resolves. -/
def fetchBoards (now : Nat) (cache : CacheFile Board) (raw : CmdResult (List RawBoard)) :
    Except String (List Board × CacheFile Board) :=
  match getAvailableBoardsStreaming raw with
  | .ok boards => .ok (boards, saveBoardsToCache boards now)
  | .error _ =>
    match loadBoardsFromCache now cache with
    | some cached => .ok (cached, cache)
    | none => .ok (getCommonBoards, cache)

/-- `getAvailableBoards`: cache first, else `fetchBoards`. -/
def getAvailableBoards (now : Nat) (cache : CacheFile Board) (raw : CmdResult (List RawBoard)) :
    Except String (List Board × CacheFile Board) :=
  match loadBoardsFromCache now cache with
  | some cached => .ok (cached, cache)
  | none => fetchBoards now cache raw

/-- `refreshBoardsCache`: deletes the cache file (`fs.unlinkSync`), then
awaits `fetchBoards`; shows a success message, or an error message if the
awaited call rejected. -/
def refreshBoardsCache (now : Nat) (cache : CacheFile Board) (raw : CmdResult (List RawBoard)) :
    RefreshOutcome × CacheFile Board :=
  match fetchBoards now CacheFile.absent raw with
  | .ok (_, c2) => (RefreshOutcome.success, c2)
  | .error e => (RefreshOutcome.errorShown e, CacheFile.absent)

/-- An external invocation started by `upload`. -/
inductive Invocation where
  | compile : Invocation
  | upload : Invocation
deriving DecidableEq

/-- What `upload` reports at the end. -/
inductive UploadOutcome where
  | noWorkspace : UploadOutcome
  | failed : String → UploadOutcome
  | completed : UploadOutcome
deriving DecidableEq

/-- `upload`: returns early when no workspace folder is open; otherwise
awaits the compile `runCommand`, and only on its success awaits the upload
`runCommand`; the catch turns the first rejection into an error message.
The first component is the list of external invocations started, in
order. -/
def upload (currentDir : String) (compileResult uploadResult : Except String Unit) :
    List Invocation × UploadOutcome :=
  if currentDir = "" then ([], UploadOutcome.noWorkspace)
  else
    match compileResult with
    | .error e => ([Invocation.compile], UploadOutcome.failed e)
    | .ok _ =>
      match uploadResult with
      | .error e => ([Invocation.compile, Invocation.upload], UploadOutcome.failed e)
      | .ok _ => ([Invocation.compile, Invocation.upload], UploadOutcome.completed)

/-- How the spawned child process ends: a `close` event with an exit
code, or an `error` event (spawn failure). -/
inductive ProcessEnd where
  | exited : Int → ProcessEnd
  | spawnError : String → ProcessEnd
deriving DecidableEq

/-- `runCommand`: resolves iff the child closes with code 0; a non-zero
code rejects with `Command failed with exit code <code>`; a spawn error
rejects with that error. -/
def runCommand (ev : ProcessEnd) : Except String Unit :=
  match ev with
  | .exited code =>
    if code = 0 then .ok ()
    else .error ("Command failed with exit code " ++ toString code)
  | .spawnError e => .error e

end ArduinoManager

namespace LibraryManager

/-- A library entry as built by the join in `fetchLibraries`. -/
structure Library where
  name : String
  version : Option String
  installed : Bool
  hasUpdate : Bool
  latestVersion : Option String
deriving DecidableEq

/-- `cacheExpiration = 7 * 24 * 60 * 60 * 1000` — 7 days in milliseconds. -/
def cacheExpiration : Nat := 7 * 24 * 60 * 60 * 1000

/-- `loadFromCache`: same shape as `loadBoardsFromCache`, over
`cached.libraries`. -/
def loadFromCache (now : Nat) (file : CacheFile Library) : Option (List Library) :=
  match file with
  | .absent => none
  | .present mtime content =>
    if now - mtime > cacheExpiration then none
    else
      match content with
      | .corrupt => none
      | .valid libraries => some libraries

/-- A `lib search` result projected to the fields the code reads. -/
structure SearchLib where
  name : String
  version : Option String
deriving DecidableEq

/-- A `lib list` entry: the code reads `entry.library.name` and
`entry.library.version`, each possibly missing. -/
structure InstalledEntry where
  name : Option String
  version : Option String
deriving DecidableEq

/-- A `lib outdated` entry: the code reads `libEntry.library?.name` and
`libEntry.release?.version`, each possibly missing. -/
structure OutdatedEntry where
  libName : Option String
  releaseVersion : Option String
deriving DecidableEq

/-- JS `Map` as an association list with unique keys; `set` overwrites an
existing binding (position of re-set keys is immaterial to `has`/`get`). -/
def mapSet {α : Type} (m : List (String × α)) (k : String) (v : α) : List (String × α) :=
  m.filter (fun p => p.1 != k) ++ [(k, v)]

/-- JS `Map.has`. -/
def mapHas {α : Type} (m : List (String × α)) (k : String) : Bool :=
  m.any (fun p => p.1 == k)

/-- JS `Map.get` (`none` models `undefined`). -/
def mapGet {α : Type} (m : List (String × α)) (k : String) : Option α :=
  (m.find? (fun p => p.1 == k)).map Prod.snd

/-- `getAvailableLibrariesStreaming` (`lib search --format json`): rejects
on exec error or parse error, else resolves with the (possibly defaulted
to empty) `data.libraries` mapped to `{name, version}`. -/
def getAvailableLibrariesStreaming (raw : CmdResult (List SearchLib)) :
    Except String (List SearchLib) :=
  match raw with
  | .execError e => .error e
  | .parseError e => .error e
  | .parsed libs => .ok libs

/-- `getInstalledLibraries` (`lib list --format json`): rejects on exec
error or parse error; else builds a Map name → version from the entries
whose `library.name` is truthy. -/
def getInstalledLibraries (raw : CmdResult (List InstalledEntry)) :
    Except String (List (String × Option String)) :=
  match raw with
  | .execError e => .error e
  | .parseError e => .error e
  | .parsed entries =>
    .ok (entries.foldl
      (fun m e =>
        match e.name with
        | some n => if n ≠ "" then mapSet m n e.version else m
        | none => m)
      [])

/-- `getOutdatedLibraries` (`lib outdated --format json`): an exec error
resolves with an empty Map ("okay if this fails"), and so does a parse
error; else builds a Map name → latest version from entries whose name
and release version are both truthy. -/
def getOutdatedLibraries (raw : CmdResult (List OutdatedEntry)) :
    Except String (List (String × String)) :=
  match raw with
  | .execError _ => .ok []
  | .parseError _ => .ok []
  | .parsed entries =>
    .ok (entries.foldl
      (fun m e =>
        match e.libName, e.releaseVersion with
        | some n, some v => if n ≠ "" ∧ v ≠ "" then mapSet m n v else m
        | _, _ => m)
      [])

/-- The join in `fetchLibraries`: one entry per search result, flags and
latest version looked up by name in the two maps. -/
def joinLibraries (available : List SearchLib) (installedLibs : List (String × Option String))
    (outdatedLibs : List (String × String)) : List Library :=
  available.map fun lib =>
    { name := lib.name
      version := lib.version
      installed := mapHas installedLibs lib.name
      hasUpdate := mapHas outdatedLibs lib.name
      latestVersion := mapGet outdatedLibs lib.name }

/-- `saveToCache`: writes `{libraries, timestamp: Date.now()}`. -/
def saveToCache (libraries : List Library) (now : Nat) : CacheFile Library :=
  CacheFile.present now (CacheContent.valid libraries)

/-- The try block of `fetchLibraries`: awaits installed and outdated
(`Promise.all` — a rejection of either rejects the block and the later
search call never runs), then the search, joins, and saves to cache. -/
def fetchLibrariesAttempt (now : Nat) (searchRaw : CmdResult (List SearchLib))
    (installedRaw : CmdResult (List InstalledEntry))
    (outdatedRaw : CmdResult (List OutdatedEntry)) :
    Except String (List Library × CacheFile Library) := do
  let installedLibs ← getInstalledLibraries installedRaw
  let outdatedLibs ← getOutdatedLibraries outdatedRaw
  let availableLibs ← getAvailableLibrariesStreaming searchRaw
  let libraries := joinLibraries availableLibs installedLibs outdatedLibs
  pure (libraries, saveToCache libraries now)

/-- `fetchLibraries`: the try block, with a catch that retries
`loadFromCache` and finally resolves with the empty list.  The promise
always resolves. -/
def fetchLibraries (now : Nat) (cache : CacheFile Library)
    (searchRaw : CmdResult (List SearchLib)) (installedRaw : CmdResult (List InstalledEntry))
    (outdatedRaw : CmdResult (List OutdatedEntry)) :
    Except String (List Library × CacheFile Library) :=
  match fetchLibrariesAttempt now searchRaw installedRaw outdatedRaw with
  | .ok r => .ok r
  | .error _ =>
    match loadFromCache now cache with
    | some cached => .ok (cached, cache)
    | none => .ok (([] : List Library), cache)

/-- `getLibraries`: cache first, else `fetchLibraries`. -/
def getLibraries (now : Nat) (cache : CacheFile Library)
    (searchRaw : CmdResult (List SearchLib)) (installedRaw : CmdResult (List InstalledEntry))
    (outdatedRaw : CmdResult (List OutdatedEntry)) :
    Except String (List Library × CacheFile Library) :=
  match loadFromCache now cache with
  | some cached => .ok (cached, cache)
  | none => fetchLibraries now cache searchRaw installedRaw outdatedRaw

/-- `refreshCache`: deletes the cache file, then awaits `fetchLibraries`;
shows a success message, or an error message if the awaited call
rejected. -/
def refreshCache (now : Nat) (cache : CacheFile Library)
    (searchRaw : CmdResult (List SearchLib)) (installedRaw : CmdResult (List InstalledEntry))
    (outdatedRaw : CmdResult (List OutdatedEntry)) :
    RefreshOutcome × CacheFile Library :=
  match fetchLibraries now CacheFile.absent searchRaw installedRaw outdatedRaw with
  | .ok (_, c2) => (RefreshOutcome.success, c2)
  | .error e => (RefreshOutcome.errorShown e, CacheFile.absent)

end LibraryManager

namespace ConfigManager

/-- The in-memory configuration `{board, port, baudrate}`. -/
structure ArduinoConfig where
  board : String
  port : String
  baudrate : Int
deriving DecidableEq

/-- The parsed project-local config file: each key possibly missing. -/
structure LoadedConfig where
  board : Option String
  port : Option String
  baudrate : Option Int
deriving DecidableEq

/-- JS `loaded || default` on a string field: `undefined` and `""` are
falsy and keep the default. -/
def jsOrString (v : Option String) (d : String) : String :=
  match v with
  | some s => if s = "" then d else s
  | none => d

/-- JS `loaded || default` on a number field: `undefined` and `0` are
falsy and keep the default (Int has no NaN). -/
def jsOrInt (v : Option Int) (d : Int) : Int :=
  match v with
  | some n => if n = 0 then d else n
  | none => d

/-- State of the project-local config file when `loadConfig` runs. -/
inductive ConfigFileState where
  | absent : ConfigFileState
  | unreadable : String → ConfigFileState
  | content : LoadedConfig → ConfigFileState

/-- `loadConfig`: a missing file creates the default config, a read/parse
throw is caught and keeps the defaults, and a parsed file overrides each
field with `loadedConfig.field || this.config.field`. -/
def loadConfig (file : ConfigFileState) (cfg : ArduinoConfig) : ArduinoConfig :=
  match file with
  | .absent => cfg
  | .unreadable _ => cfg
  | .content loaded =>
    { board := jsOrString loaded.board cfg.board
      port := jsOrString loaded.port cfg.port
      baudrate := jsOrInt loaded.baudrate cfg.baudrate }

end ConfigManager

end VSCodeArduino

namespace VSCodeArduino

/-- A corrupt boards cache file loads as a miss, at any age. -/
theorem loadBoardsFromCache_corrupt (now mtime : Nat) :
    ArduinoManager.loadBoardsFromCache now (CacheFile.present mtime CacheContent.corrupt) = none := by
  simp only [ArduinoManager.loadBoardsFromCache]
  split <;> rfl

/-- A corrupt libraries cache file loads as a miss, at any age. -/
theorem loadFromCache_corrupt (now mtime : Nat) :
    LibraryManager.loadFromCache now (CacheFile.present mtime CacheContent.corrupt) = none := by
  simp only [LibraryManager.loadFromCache]
  split <;> rfl

/-- Claim C3: a cache file whose mtime is more than 7 days
(7*24*60*60*1000 ms) in the past loads as a miss (`none`), so it is never
returned as a fresh hit; a file aged exactly 7 days or less with valid
content is returned as a hit. -/
theorem c3_expired_cache_is_miss :
    (∀ (now mtime : Nat) (bc : CacheContent ArduinoManager.Board)
        (lc : CacheContent LibraryManager.Library),
      mtime + 7 * 24 * 60 * 60 * 1000 < now →
        ArduinoManager.loadBoardsFromCache now (CacheFile.present mtime bc) = none ∧
        LibraryManager.loadFromCache now (CacheFile.present mtime lc) = none) ∧
    (∀ (now mtime : Nat) (bs : List ArduinoManager.Board) (ls : List LibraryManager.Library),
      now ≤ mtime + 7 * 24 * 60 * 60 * 1000 →
        ArduinoManager.loadBoardsFromCache now
            (CacheFile.present mtime (CacheContent.valid bs)) = some bs ∧
        LibraryManager.loadFromCache now
            (CacheFile.present mtime (CacheContent.valid ls)) = some ls) := by
  constructor
  · intro now mtime bc lc h
    have hb : now - mtime > ArduinoManager.cacheExpiration := by
      simp only [ArduinoManager.cacheExpiration]; omega
    have hl : now - mtime > LibraryManager.cacheExpiration := by
      simp only [LibraryManager.cacheExpiration]; omega
    constructor
    · simp only [ArduinoManager.loadBoardsFromCache]
      rw [if_pos hb]
    · simp only [LibraryManager.loadFromCache]
      rw [if_pos hl]
  · intro now mtime bs ls h
    have hb : ¬ now - mtime > ArduinoManager.cacheExpiration := by
      simp only [ArduinoManager.cacheExpiration]; omega
    have hl : ¬ now - mtime > LibraryManager.cacheExpiration := by
      simp only [LibraryManager.cacheExpiration]; omega
    constructor
    · simp only [ArduinoManager.loadBoardsFromCache]
      rw [if_neg hb]
    · simp only [LibraryManager.loadFromCache]
      rw [if_neg hl]

/-- Witness for C3: an 8-day-old boards cache misses; an exactly-7-day-old
libraries cache hits. -/
theorem c3_expired_cache_is_miss_witness :
    ArduinoManager.loadBoardsFromCache 604800001
        (CacheFile.present 0 (CacheContent.valid ArduinoManager.getCommonBoards)) = none ∧
    LibraryManager.loadFromCache 604800000
        (CacheFile.present 0 (CacheContent.valid [])) = some [] := by
  constructor
  · exact (c3_expired_cache_is_miss.1 604800001 0
      (CacheContent.valid ArduinoManager.getCommonBoards) CacheContent.corrupt (by decide)).1
  · exact (c3_expired_cache_is_miss.2 604800000 0 [] [] (by decide)).2

/-- Claim C5: upload runs compile then upload in sequence; if compile
rejects, the upload invocation is never started; if compile succeeds, the
upload invocation runs after it. -/
theorem c5_upload_sequencing :
    ∀ (currentDir : String) (cr ur : Except String Unit),
      currentDir ≠ "" →
        (∀ e, cr = Except.error e →
            (ArduinoManager.upload currentDir cr ur).1 = [ArduinoManager.Invocation.compile] ∧
            ArduinoManager.Invocation.upload ∉ (ArduinoManager.upload currentDir cr ur).1) ∧
        (cr = Except.ok () →
            (ArduinoManager.upload currentDir cr ur).1 =
              [ArduinoManager.Invocation.compile, ArduinoManager.Invocation.upload]) := by
  intro dir cr ur h
  constructor
  · intro e he
    subst he
    simp [ArduinoManager.upload, h]
  · intro he
    subst he
    cases ur <;> simp [ArduinoManager.upload, h]

/-- Witness for C5: concrete failed-compile and successful-compile runs. -/
theorem c5_upload_sequencing_witness :
    (ArduinoManager.upload "sketch" (Except.error "boom") (Except.ok ())).1 =
      [ArduinoManager.Invocation.compile] ∧
    (ArduinoManager.upload "sketch" (Except.ok ()) (Except.ok ())).1 =
      [ArduinoManager.Invocation.compile, ArduinoManager.Invocation.upload] := by
  constructor
  · exact ((c5_upload_sequencing "sketch" (Except.error "boom") (Except.ok ())
      (by decide)).1 "boom" rfl).1
  · exact (c5_upload_sequencing "sketch" (Except.ok ()) (Except.ok ())
      (by decide)).2 rfl

/-- Claim C6: with no cache file and every external invocation failing,
board listing returns exactly the 12 hardcoded default boards and library
listing returns the empty list. -/
theorem c6_no_tool_no_cache_defaults :
    ∀ (now : Nat) (eb es ei eo : String),
      ArduinoManager.getAvailableBoards now CacheFile.absent (CmdResult.execError eb) =
        Except.ok
          ([ { label := "Arduino Uno", fqbn := "arduino:avr:uno", name := "Arduino Uno" },
             { label := "Arduino Nano", fqbn := "arduino:avr:nano", name := "Arduino Nano" },
             { label := "Arduino Mega", fqbn := "arduino:avr:mega", name := "Arduino Mega" },
             { label := "Arduino Leonardo", fqbn := "arduino:avr:leonardo",
               name := "Arduino Leonardo" },
             { label := "Arduino Micro", fqbn := "arduino:avr:micro", name := "Arduino Micro" },
             { label := "Arduino Pro Mini", fqbn := "arduino:avr:pro",
               name := "Arduino Pro Mini" },
             { label := "ESP32 Dev Module", fqbn := "esp32:esp32:esp32",
               name := "ESP32 Dev Module" },
             { label := "ESP32-S3 Dev Module", fqbn := "esp32:esp32:esp32s3",
               name := "ESP32-S3 Dev Module" },
             { label := "ESP8266 NodeMCU", fqbn := "esp8266:esp8266:nodemcuv2",
               name := "ESP8266 NodeMCU" },
             { label := "ESP8266 Generic", fqbn := "esp8266:esp8266:generic",
               name := "ESP8266 Generic" },
             { label := "Teensy 3.2", fqbn := "teensy:avr:teensy32", name := "Teensy 3.2" },
             { label := "Teensy 4.0", fqbn := "teensy:avr:teensy40", name := "Teensy 4.0" } ],
           CacheFile.absent) ∧
      ArduinoManager.getCommonBoards.length = 12 ∧
      LibraryManager.getLibraries now CacheFile.absent (CmdResult.execError es)
          (CmdResult.execError ei) (CmdResult.execError eo) =
        Except.ok (([] : List LibraryManager.Library), CacheFile.absent) := by
  intro now eb es ei eo
  exact ⟨rfl, rfl, rfl⟩

/-- Claim C8: the command runner resolves iff the child exits with code 0;
a non-zero exit code rejects with a message containing that code. -/
theorem c8_exit_code_semantics :
    ∀ code : Int,
      (ArduinoManager.runCommand (ArduinoManager.ProcessEnd.exited code) =
          Except.ok () ↔ code = 0) ∧
      (code ≠ 0 →
        ArduinoManager.runCommand (ArduinoManager.ProcessEnd.exited code) =
          Except.error ("Command failed with exit code " ++ toString code) ∧
        ∃ s, ArduinoManager.runCommand (ArduinoManager.ProcessEnd.exited code) =
          Except.error (s ++ toString code)) := by
  intro code
  constructor
  · rcases eq_or_ne code 0 with h | h
    · subst h; simp [ArduinoManager.runCommand]
    · simp [ArduinoManager.runCommand, h]
  · intro h
    exact ⟨by simp [ArduinoManager.runCommand, h],
      "Command failed with exit code ", by simp [ArduinoManager.runCommand, h]⟩

/-- Witness for C8: exit code 2 rejects with the code in the message. -/
theorem c8_exit_code_semantics_witness :
    ArduinoManager.runCommand (ArduinoManager.ProcessEnd.exited 2) =
      Except.error ("Command failed with exit code " ++ toString (2 : Int)) := by
  exact ((c8_exit_code_semantics 2).2 (by decide)).1

/-- Claim C9: `loadConfig` overrides a field only when the loaded value is
truthy: a missing field, an empty string, or the number 0 keeps the
previously held default. -/
theorem c9_truthy_config_override :
    ∀ (loaded : ConfigManager.LoadedConfig) (cfg : ConfigManager.ArduinoConfig),
      ((loaded.board = none ∨ loaded.board = some "") →
        (ConfigManager.loadConfig (ConfigManager.ConfigFileState.content loaded) cfg).board =
          cfg.board) ∧
      (∀ s, loaded.board = some s → s ≠ "" →
        (ConfigManager.loadConfig (ConfigManager.ConfigFileState.content loaded) cfg).board = s) ∧
      ((loaded.port = none ∨ loaded.port = some "") →
        (ConfigManager.loadConfig (ConfigManager.ConfigFileState.content loaded) cfg).port =
          cfg.port) ∧
      (∀ s, loaded.port = some s → s ≠ "" →
        (ConfigManager.loadConfig (ConfigManager.ConfigFileState.content loaded) cfg).port = s) ∧
      ((loaded.baudrate = none ∨ loaded.baudrate = some 0) →
        (ConfigManager.loadConfig (ConfigManager.ConfigFileState.content loaded) cfg).baudrate =
          cfg.baudrate) ∧
      (∀ n, loaded.baudrate = some n → n ≠ 0 →
        (ConfigManager.loadConfig (ConfigManager.ConfigFileState.content loaded) cfg).baudrate =
          n) := by
  intro loaded cfg
  refine ⟨?_, ?_, ?_, ?_, ?_, ?_⟩
  · rintro (h | h) <;> simp [ConfigManager.loadConfig, ConfigManager.jsOrString, h]
  · intro s hs hne
    simp [ConfigManager.loadConfig, ConfigManager.jsOrString, hs, hne]
  · rintro (h | h) <;> simp [ConfigManager.loadConfig, ConfigManager.jsOrString, h]
  · intro s hs hne
    simp [ConfigManager.loadConfig, ConfigManager.jsOrString, hs, hne]
  · rintro (h | h) <;> simp [ConfigManager.loadConfig, ConfigManager.jsOrInt, h]
  · intro n hn hne
    simp [ConfigManager.loadConfig, ConfigManager.jsOrInt, hn, hne]

/-- Witness for C9: a stored empty port and zero baudrate are ignored; a
truthy board overrides. -/
theorem c9_truthy_config_override_witness :
    (ConfigManager.loadConfig
        (ConfigManager.ConfigFileState.content
          { board := some "esp32:esp32:esp32", port := some "", baudrate := some 0 })
        { board := "arduino:avr:uno", port := "/dev/ttyACM0", baudrate := 115200 }).board =
      "esp32:esp32:esp32" ∧
    (ConfigManager.loadConfig
        (ConfigManager.ConfigFileState.content
          { board := some "esp32:esp32:esp32", port := some "", baudrate := some 0 })
        { board := "arduino:avr:uno", port := "/dev/ttyACM0", baudrate := 115200 }).port =
      "/dev/ttyACM0" ∧
    (ConfigManager.loadConfig
        (ConfigManager.ConfigFileState.content
          { board := some "esp32:esp32:esp32", port := some "", baudrate := some 0 })
        { board := "arduino:avr:uno", port := "/dev/ttyACM0", baudrate := 115200 }).baudrate =
      115200 := by
  have h := c9_truthy_config_override
    { board := some "esp32:esp32:esp32", port := some "", baudrate := some 0 }
    { board := "arduino:avr:uno", port := "/dev/ttyACM0", baudrate := 115200 }
  exact ⟨h.2.1 "esp32:esp32:esp32" rfl (by decide), h.2.2.1 (Or.inr rfl),
    h.2.2.2.2.1 (Or.inr rfl)⟩

end VSCodeArduino

namespace VSCodeArduino

/-- `fetchBoards` always resolves (its catch swallows every failure). -/
theorem fetchBoards_resolves (now : Nat) (cache : CacheFile ArduinoManager.Board)
    (raw : CmdResult (List ArduinoManager.RawBoard)) :
    ∃ v, ArduinoManager.fetchBoards now cache raw = Except.ok v := by
  unfold ArduinoManager.fetchBoards
  cases ArduinoManager.getAvailableBoardsStreaming raw
  · cases ArduinoManager.loadBoardsFromCache now cache <;> exact ⟨_, rfl⟩
  · exact ⟨_, rfl⟩

/-- `fetchLibraries` always resolves (its catch swallows every failure). -/
theorem fetchLibraries_resolves (now : Nat) (cache : CacheFile LibraryManager.Library)
    (sraw : CmdResult (List LibraryManager.SearchLib))
    (iraw : CmdResult (List LibraryManager.InstalledEntry))
    (oraw : CmdResult (List LibraryManager.OutdatedEntry)) :
    ∃ v, LibraryManager.fetchLibraries now cache sraw iraw oraw = Except.ok v := by
  unfold LibraryManager.fetchLibraries
  cases LibraryManager.fetchLibrariesAttempt now sraw iraw oraw
  · cases LibraryManager.loadFromCache now cache <;> exact ⟨_, rfl⟩
  · exact ⟨_, rfl⟩

/-- Claim C1 counterexample: a parseable boards cache aged just over 7 days
together with a failing live fetch makes getList return the static defaults,
not the cache contents. -/
theorem c1_stale_cache_counterexample :
    (ArduinoManager.getAvailableBoards 604800001
        (CacheFile.present 0
          (CacheContent.valid
            [{ label := "Arduino Uno", fqbn := "arduino:avr:uno", name := "Arduino Uno" }]))
        (CmdResult.execError "arduino-cli not found")).map Prod.fst =
      Except.ok ArduinoManager.getCommonBoards ∧
    ArduinoManager.getCommonBoards ≠
      [{ label := "Arduino Uno", fqbn := "arduino:avr:uno", name := "Arduino Uno" }] := by
  constructor
  · rfl
  · decide

/-- Claim C1 (amended): on live-fetch failure, getList consults the cache again
through the same age-checked loader, so it returns the cache contents only when
the cache is parseable and at most 7 days old; otherwise boards fall back to
the static default list and libraries to the empty list. -/
theorem c1_fetch_failure_fallback :
    (∀ (now : Nat) (cache : CacheFile ArduinoManager.Board)
        (raw : CmdResult (List ArduinoManager.RawBoard)) (e : String),
      ArduinoManager.getAvailableBoardsStreaming raw = Except.error e →
        (ArduinoManager.getAvailableBoards now cache raw).map Prod.fst =
          Except.ok ((ArduinoManager.loadBoardsFromCache now cache).getD
            ArduinoManager.getCommonBoards)) ∧
    (∀ (now : Nat) (cache : CacheFile LibraryManager.Library)
        (sraw : CmdResult (List LibraryManager.SearchLib))
        (iraw : CmdResult (List LibraryManager.InstalledEntry))
        (oraw : CmdResult (List LibraryManager.OutdatedEntry)) (e : String),
      LibraryManager.fetchLibrariesAttempt now sraw iraw oraw = Except.error e →
        (LibraryManager.getLibraries now cache sraw iraw oraw).map Prod.fst =
          Except.ok ((LibraryManager.loadFromCache now cache).getD [])) := by
  constructor
  · intro now cache raw e he
    unfold ArduinoManager.getAvailableBoards ArduinoManager.fetchBoards
    rw [he]
    cases hc : ArduinoManager.loadBoardsFromCache now cache <;> simp [hc, Except.map]
  · intro now cache sraw iraw oraw e he
    unfold LibraryManager.getLibraries LibraryManager.fetchLibraries
    rw [he]
    cases hc : LibraryManager.loadFromCache now cache <;> simp [hc, Except.map]

/-- Witness for the amended C1: failing fetch with no cache yields the static
default boards and the empty library list. -/
theorem c1_fetch_failure_fallback_witness :
    (ArduinoManager.getAvailableBoards 0 CacheFile.absent
        (CmdResult.execError "fail")).map Prod.fst =
      Except.ok ArduinoManager.getCommonBoards ∧
    (LibraryManager.getLibraries 0 CacheFile.absent (CmdResult.execError "fail")
        (CmdResult.execError "fail") (CmdResult.execError "fail")).map Prod.fst =
      Except.ok ([] : List LibraryManager.Library) := by
  constructor
  · have h := c1_fetch_failure_fallback.1 0 CacheFile.absent
      (CmdResult.execError "fail") "fail" rfl
    exact h.trans rfl
  · have h := c1_fetch_failure_fallback.2 0 CacheFile.absent (CmdResult.execError "fail")
      (CmdResult.execError "fail") (CmdResult.execError "fail") "fail" rfl
    exact h.trans rfl

/-- Claim C2 counterexample: with a failing re-fetch, both refresh operations
report success — the failure is not raised — and the boards fetch step
substitutes the hardcoded static list. -/
theorem c2_refresh_counterexample :
    ArduinoManager.refreshBoardsCache 0
        (CacheFile.present 0 (CacheContent.valid ArduinoManager.getCommonBoards))
        (CmdResult.execError "arduino-cli missing") =
      (RefreshOutcome.success, CacheFile.absent) ∧
    ArduinoManager.fetchBoards 0 CacheFile.absent (CmdResult.execError "arduino-cli missing") =
      Except.ok (ArduinoManager.getCommonBoards, CacheFile.absent) ∧
    LibraryManager.refreshCache 0 (CacheFile.present 0 (CacheContent.valid []))
        (CmdResult.execError "arduino-cli missing") (CmdResult.execError "arduino-cli missing")
        (CmdResult.execError "arduino-cli missing") =
      (RefreshOutcome.success, CacheFile.absent) :=
  ⟨rfl, rfl, rfl⟩

/-- Claim C2 (amended): refresh deletes the cache file and then re-fetches;
stale cached data is indeed never substituted (the cache was just deleted),
but a re-fetch failure is not raised to the caller: it is swallowed inside the
fetch step, which yields the static default boards (resp. the empty library
list), and the refresh reports success. -/
theorem c2_refresh_swallows_failure :
    (∀ (now : Nat) (cache : CacheFile ArduinoManager.Board)
        (raw : CmdResult (List ArduinoManager.RawBoard)) (e : String),
      ArduinoManager.getAvailableBoardsStreaming raw = Except.error e →
        ArduinoManager.refreshBoardsCache now cache raw =
          (RefreshOutcome.success, CacheFile.absent) ∧
        ArduinoManager.fetchBoards now CacheFile.absent raw =
          Except.ok (ArduinoManager.getCommonBoards, CacheFile.absent)) ∧
    (∀ (now : Nat) (cache : CacheFile LibraryManager.Library)
        (sraw : CmdResult (List LibraryManager.SearchLib))
        (iraw : CmdResult (List LibraryManager.InstalledEntry))
        (oraw : CmdResult (List LibraryManager.OutdatedEntry)) (e : String),
      LibraryManager.fetchLibrariesAttempt now sraw iraw oraw = Except.error e →
        LibraryManager.refreshCache now cache sraw iraw oraw =
          (RefreshOutcome.success, CacheFile.absent) ∧
        LibraryManager.fetchLibraries now CacheFile.absent sraw iraw oraw =
          Except.ok (([] : List LibraryManager.Library), CacheFile.absent)) := by
  constructor
  · intro now cache raw e he
    have hfetch : ArduinoManager.fetchBoards now CacheFile.absent raw =
        Except.ok (ArduinoManager.getCommonBoards, CacheFile.absent) := by
      unfold ArduinoManager.fetchBoards
      rw [he]
      rfl
    refine ⟨?_, hfetch⟩
    unfold ArduinoManager.refreshBoardsCache
    rw [hfetch]
  · intro now cache sraw iraw oraw e he
    have hfetch : LibraryManager.fetchLibraries now CacheFile.absent sraw iraw oraw =
        Except.ok (([] : List LibraryManager.Library), CacheFile.absent) := by
      unfold LibraryManager.fetchLibraries
      rw [he]
      rfl
    refine ⟨?_, hfetch⟩
    unfold LibraryManager.refreshCache
    rw [hfetch]

/-- Witness for the amended C2: concrete failing refresh runs. -/
theorem c2_refresh_swallows_failure_witness :
    ArduinoManager.refreshBoardsCache 5 CacheFile.absent (CmdResult.parseError "bad json") =
      (RefreshOutcome.success, CacheFile.absent) ∧
    LibraryManager.refreshCache 5 CacheFile.absent (CmdResult.parseError "bad json")
        (CmdResult.parsed []) (CmdResult.parsed []) =
      (RefreshOutcome.success, CacheFile.absent) := by
  constructor
  · exact (c2_refresh_swallows_failure.1 5 CacheFile.absent
      (CmdResult.parseError "bad json") "bad json" rfl).1
  · exact (c2_refresh_swallows_failure.2 5 CacheFile.absent
      (CmdResult.parseError "bad json") (CmdResult.parsed []) (CmdResult.parsed [])
      "bad json" rfl).1

/-- Claim C4: a cache file with unparseable JSON (or JSON lacking the expected
array field) makes getList return the same result as with the cache file
absent, and the corruption never surfaces as an error (the promise still
resolves). -/
theorem c4_corrupt_cache_as_missing :
    ∀ (now mtime : Nat) (braw : CmdResult (List ArduinoManager.RawBoard))
      (sraw : CmdResult (List LibraryManager.SearchLib))
      (iraw : CmdResult (List LibraryManager.InstalledEntry))
      (oraw : CmdResult (List LibraryManager.OutdatedEntry)),
      (ArduinoManager.getAvailableBoards now (CacheFile.present mtime CacheContent.corrupt)
          braw).map Prod.fst =
        (ArduinoManager.getAvailableBoards now CacheFile.absent braw).map Prod.fst ∧
      (∃ v, ArduinoManager.getAvailableBoards now (CacheFile.present mtime CacheContent.corrupt)
          braw = Except.ok v) ∧
      (LibraryManager.getLibraries now (CacheFile.present mtime CacheContent.corrupt)
          sraw iraw oraw).map Prod.fst =
        (LibraryManager.getLibraries now CacheFile.absent sraw iraw oraw).map Prod.fst ∧
      (∃ v, LibraryManager.getLibraries now (CacheFile.present mtime CacheContent.corrupt)
          sraw iraw oraw = Except.ok v) := by
  intro now mtime braw sraw iraw oraw
  have hbc := loadBoardsFromCache_corrupt now mtime
  have hlc := loadFromCache_corrupt now mtime
  refine ⟨?_, ?_, ?_, ?_⟩
  · simp only [ArduinoManager.getAvailableBoards, ArduinoManager.fetchBoards, hbc,
      show ArduinoManager.loadBoardsFromCache now CacheFile.absent = none from rfl]
    cases hs : ArduinoManager.getAvailableBoardsStreaming braw <;> simp [Except.map]
  · simp only [ArduinoManager.getAvailableBoards, hbc]
    exact fetchBoards_resolves now _ braw
  · simp only [LibraryManager.getLibraries, LibraryManager.fetchLibraries, hlc,
      show LibraryManager.loadFromCache now CacheFile.absent = none from rfl]
    cases hs : LibraryManager.fetchLibrariesAttempt now sraw iraw oraw <;> simp [Except.map]
  · simp only [LibraryManager.getLibraries, hlc]
    exact fetchLibraries_resolves now _ sraw iraw oraw

end VSCodeArduino

namespace VSCodeArduino

/-- `Map.has` tests exactly membership of the key among the map's keys. -/
theorem mapHas_eq_true_iff {α : Type} (m : List (String × α)) (k : String) :
    LibraryManager.mapHas m k = true ↔ k ∈ m.map Prod.fst := by
  simp [LibraryManager.mapHas, List.any_eq_true, List.mem_map]

/-- `Map.get` is `undefined` on a key that is not in the map. -/
theorem mapGet_eq_none_of_not_mem {α : Type} (m : List (String × α)) (k : String)
    (h : k ∉ m.map Prod.fst) : LibraryManager.mapGet m k = none := by
  have hf : m.find? (fun p => p.1 == k) = none := by
    rw [List.find?_eq_none]
    intro p hp hbeq
    exact h (List.mem_map.2 ⟨p, hp, by simpa using hbeq⟩)
  simp [LibraryManager.mapGet, hf]

/-- Claim C7: the joined library list has one entry per search result, in
order, keyed by name; the installed flag holds iff the name is a key of the
installed map, the update flag iff it is a key of the outdated map, and the
latest-version field is the outdated map's recorded version for that name,
absent when the name is not in the outdated map. -/
theorem c7_join_by_name :
    ∀ (a : List LibraryManager.SearchLib) (i : List (String × Option String))
      (o : List (String × String)),
      (LibraryManager.joinLibraries a i o).length = a.length ∧
      ∀ (k : Nat) (hk : k < a.length) (hj : k < (LibraryManager.joinLibraries a i o).length),
        ((LibraryManager.joinLibraries a i o).get ⟨k, hj⟩).name = (a.get ⟨k, hk⟩).name ∧
        (((LibraryManager.joinLibraries a i o).get ⟨k, hj⟩).installed = true ↔
          (a.get ⟨k, hk⟩).name ∈ i.map Prod.fst) ∧
        (((LibraryManager.joinLibraries a i o).get ⟨k, hj⟩).hasUpdate = true ↔
          (a.get ⟨k, hk⟩).name ∈ o.map Prod.fst) ∧
        ((LibraryManager.joinLibraries a i o).get ⟨k, hj⟩).latestVersion =
          LibraryManager.mapGet o ((a.get ⟨k, hk⟩).name) ∧
        ((a.get ⟨k, hk⟩).name ∉ o.map Prod.fst →
          ((LibraryManager.joinLibraries a i o).get ⟨k, hj⟩).latestVersion = none) := by
  intro a i o
  refine ⟨by simp [LibraryManager.joinLibraries], ?_⟩
  intro k hk hj
  have hget : (LibraryManager.joinLibraries a i o).get ⟨k, hj⟩ =
      { name := (a.get ⟨k, hk⟩).name
        version := (a.get ⟨k, hk⟩).version
        installed := LibraryManager.mapHas i (a.get ⟨k, hk⟩).name
        hasUpdate := LibraryManager.mapHas o (a.get ⟨k, hk⟩).name
        latestVersion := LibraryManager.mapGet o (a.get ⟨k, hk⟩).name } := by
    simp [LibraryManager.joinLibraries, List.get_eq_getElem, List.getElem_map]
  rw [hget]
  exact ⟨rfl, mapHas_eq_true_iff i _, mapHas_eq_true_iff o _, rfl,
    fun hnm => mapGet_eq_none_of_not_mem o _ hnm⟩

/-- Witness for C7: a one-element join with the library installed and
outdated. -/
theorem c7_join_by_name_witness :
    ((LibraryManager.joinLibraries [{ name := "Servo", version := some "1.0.0" }]
        [("Servo", (some "1.0.0" : Option String))] [("Servo", "1.2.0")]).get
      ⟨0, by decide⟩).hasUpdate = true ∧
    ((LibraryManager.joinLibraries [{ name := "Servo", version := some "1.0.0" }]
        [("Servo", (some "1.0.0" : Option String))] [("Servo", "1.2.0")]).get
      ⟨0, by decide⟩).installed = true := by
  have h := (c7_join_by_name [{ name := "Servo", version := some "1.0.0" }]
      [("Servo", (some "1.0.0" : Option String))] [("Servo", "1.2.0")]).2 0
      (by decide) (by decide)
  exact ⟨h.2.2.1.mpr (by decide), h.2.1.mpr (by decide)⟩

/-- Claim C10: a failing outdated-libraries query (exec error or parse error)
resolves with an empty map instead of rejecting, so the joined entries all get
a false update flag and no latest version; a failing search or installed-list
query rejects the fetch attempt, which triggers the cache/empty fallback. -/
theorem c10_outdated_failure_isolated :
    (∀ e : String,
      LibraryManager.getOutdatedLibraries (CmdResult.execError e) = Except.ok [] ∧
      LibraryManager.getOutdatedLibraries (CmdResult.parseError e) = Except.ok []) ∧
    (∀ (a : List LibraryManager.SearchLib) (i : List (String × Option String))
        (lib : LibraryManager.Library),
      lib ∈ LibraryManager.joinLibraries a i [] →
        lib.hasUpdate = false ∧ lib.latestVersion = none) ∧
    (∀ (now : Nat) (installed : List LibraryManager.InstalledEntry)
        (oraw : CmdResult (List LibraryManager.OutdatedEntry)) (e : String),
      LibraryManager.fetchLibrariesAttempt now (CmdResult.execError e)
          (CmdResult.parsed installed) oraw = Except.error e) ∧
    (∀ (now : Nat) (sraw : CmdResult (List LibraryManager.SearchLib))
        (oraw : CmdResult (List LibraryManager.OutdatedEntry)) (e : String),
      LibraryManager.fetchLibrariesAttempt now sraw (CmdResult.execError e) oraw =
        Except.error e) ∧
    (∀ (now : Nat) (search : List LibraryManager.SearchLib)
        (installed : List LibraryManager.InstalledEntry) (e : String),
      ∃ (libs : List LibraryManager.Library) (c2 : CacheFile LibraryManager.Library),
        LibraryManager.fetchLibrariesAttempt now (CmdResult.parsed search)
            (CmdResult.parsed installed) (CmdResult.execError e) = Except.ok (libs, c2) ∧
        ∀ lib ∈ libs, lib.hasUpdate = false ∧ lib.latestVersion = none) ∧
    (∀ (now : Nat) (cache : CacheFile LibraryManager.Library)
        (sraw : CmdResult (List LibraryManager.SearchLib))
        (iraw : CmdResult (List LibraryManager.InstalledEntry))
        (oraw : CmdResult (List LibraryManager.OutdatedEntry)) (e : String),
      LibraryManager.fetchLibrariesAttempt now sraw iraw oraw = Except.error e →
        (LibraryManager.fetchLibraries now cache sraw iraw oraw).map Prod.fst =
          Except.ok ((LibraryManager.loadFromCache now cache).getD [])) := by
  have hjoin : ∀ (a : List LibraryManager.SearchLib) (i : List (String × Option String))
      (lib : LibraryManager.Library),
      lib ∈ LibraryManager.joinLibraries a i [] →
        lib.hasUpdate = false ∧ lib.latestVersion = none := by
    intro a i lib hlib
    simp only [LibraryManager.joinLibraries, List.mem_map] at hlib
    obtain ⟨x, hx, rfl⟩ := hlib
    exact ⟨rfl, rfl⟩
  refine ⟨fun e => ⟨rfl, rfl⟩, hjoin, fun now installed oraw e => ?_,
    fun now sraw oraw e => rfl, ?_, ?_⟩
  · cases oraw <;> rfl
  · intro now search installed e
    obtain ⟨iMap, hiMap⟩ : ∃ im, LibraryManager.getInstalledLibraries
        (CmdResult.parsed installed) = Except.ok im := ⟨_, rfl⟩
    have heq2 : LibraryManager.fetchLibrariesAttempt now (CmdResult.parsed search)
        (CmdResult.parsed installed) (CmdResult.execError e) =
        Except.ok (LibraryManager.joinLibraries search iMap [],
          LibraryManager.saveToCache (LibraryManager.joinLibraries search iMap []) now) := by
      unfold LibraryManager.fetchLibrariesAttempt
      rw [hiMap]
      rfl
    exact ⟨LibraryManager.joinLibraries search iMap [], _, heq2,
      fun lib hlib => hjoin search iMap lib hlib⟩
  · intro now cache sraw iraw oraw e he
    unfold LibraryManager.fetchLibraries
    rw [he]
    cases hc : LibraryManager.loadFromCache now cache <;> simp [hc, Except.map]

end VSCodeArduino

namespace VSCodeArduino

/-- Witness for C10: an installed-list failure rejects the fetch attempt and
the fetch then falls back to the empty list; a joined entry with an empty
outdated map carries no update. -/
theorem c10_outdated_failure_isolated_witness :
    LibraryManager.fetchLibrariesAttempt 3 (CmdResult.parsed [])
        (CmdResult.execError "no cli") (CmdResult.parsed []) = Except.error "no cli" ∧
    (LibraryManager.fetchLibraries 3 CacheFile.absent (CmdResult.parsed [])
        (CmdResult.execError "no cli") (CmdResult.parsed [])).map Prod.fst =
      Except.ok ([] : List LibraryManager.Library) ∧
    (({ name := "Servo", version := none, installed := false, hasUpdate := false,
          latestVersion := none } : LibraryManager.Library).hasUpdate = false ∧
      ({ name := "Servo", version := none, installed := false, hasUpdate := false,
            latestVersion := none } : LibraryManager.Library).latestVersion = none) := by
  refine ⟨c10_outdated_failure_isolated.2.2.2.1 3 (CmdResult.parsed [])
    (CmdResult.parsed []) "no cli", ?_, ?_⟩
  · have h := c10_outdated_failure_isolated.2.2.2.2.2 3 CacheFile.absent
      (CmdResult.parsed []) (CmdResult.execError "no cli") (CmdResult.parsed []) "no cli" rfl
    exact h.trans rfl
  · exact c10_outdated_failure_isolated.2.1 [{ name := "Servo", version := none }] []
      { name := "Servo", version := none, installed := false, hasUpdate := false,
        latestVersion := none }
      (by decide)

end VSCodeArduino
